import Mathlib

/- Verification of the EnOcean dongle packet-processing and device-profile engine.

The definitions below are a shallow embedding of the core of
`custom_components/enocean/dongle.py` and `custom_components/enocean/eep_devices.py`.

Modelling conventions:
* Python dictionaries that the code reads only through `get` with a default
  (`_device_invalid_packet_count`, `_device_warnings`) are modelled as total
  functions with that default; the code keys them by
  `format_device_id_hex(device_id)`, which is injective on byte lists, so the
  model keys them by the device-id list itself.
* Python strings are modelled by `String` (or `List Char` for the persistence
  keys, where the proofs work character by character).
* Fallible steps (`try`/`except`, `dict.get` misses) are modelled with `Option`.
* Numeric field values that the code stores as Python ints/floats are modelled
  as `Int`; the behaviours the claims exercise only involve exact integral
  values. -/

namespace Enocean

/-- DeviceId models `packet.sender` / registry keys: a list of byte values. -/
abbrev DeviceId := List Nat

/-- FieldData models one value of the `packet.parsed` mapping: either a bare
value or the nested dict carrying `value` / `raw_value` / `out_of_range` /
`invalid_enum` keys. -/
inductive FieldData where
  | plain (v : Int)
  | nested (value : Option Int) (rawValue : Option Int) (outOfRange : Bool) (invalidEnum : Bool)
deriving DecidableEq, Repr

/-- ParsedMap models the `packet.parsed` dict; `[]` models an unset or empty map. -/
abbrev ParsedMap := List (String × FieldData)

/-- ValPacket models the attributes of a packet consulted by
`_validate_and_track_packet`: the optional `sender` attribute (`none` models a
packet object with no `sender`) and the parsed field map. -/
structure ValPacket where
  sender : Option DeviceId
  parsed : ParsedMap
deriving DecidableEq, Repr

/-- Mirrors `_has_out_of_range_fields`: `False` for an empty or missing
`parsed`, else whether some dict-valued field has a truthy `out_of_range`. -/
def hasOutOfRangeFields (parsed : ParsedMap) : Bool :=
  parsed.any fun f =>
    match f.2 with
    | .nested _ _ oor _ => oor
    | .plain _ => false

/-- Mirrors `_has_invalid_enum_fields`. -/
def hasInvalidEnumFields (parsed : ParsedMap) : Bool :=
  parsed.any fun f =>
    match f.2 with
    | .nested _ _ _ ienum => ienum
    | .plain _ => false

/-- Per-telegram invalidity, the rejection condition of the VALIDATION step. -/
def packetInvalid (p : ValPacket) : Bool :=
  hasOutOfRangeFields p.parsed || hasInvalidEnumFields p.parsed

/-- DongleState gathers the mutable tracking maps of `EnOceanDongle` that
`_validate_and_track_packet` reads and writes:
`_device_invalid_packet_count` (default 0) and the two flags of
`_device_warnings` (default `False`). -/
structure DongleState where
  invalidCount : DeviceId → Nat
  warnedOutOfRange : DeviceId → Bool
  warnedInvalidEnum : DeviceId → Bool

/-- Fixed threshold, `self._dongle_reset_threshold = 5`. -/
def dongleResetThreshold : Nat := 5

/-- State in which every per-device counter and warning flag is cleared, the
result of `_device_invalid_packet_count.clear()` / `_device_warnings.clear()`. -/
def clearedTracking : DongleState :=
  ⟨fun _ => 0, fun _ => false, fun _ => false⟩

/-- Mirrors `_trigger_dongle_reset` on its success path: one `CO_WR_RESET`
command is dispatched to the transport, then all device counters and warning
flags are cleared globally. Returns the new tracking state together with the
number of reset commands emitted. -/
def triggerDongleReset (_s : DongleState) : DongleState × Nat :=
  (clearedTracking, 1)

/-- Mirrors `_validate_and_track_packet`. Returns (dispatch?, new tracking
state, number of reset commands emitted). A packet without a `sender`
attribute is accepted unconditionally; an out-of-range packet (checked first)
or an invalid-enum packet sets the corresponding once-per-device warning flag,
increments the device counter and, at the threshold, triggers the dongle
reset; the valid path leaves the tracking state untouched (the reset lines
are commented out in the source). -/
def validateAndTrack (s : DongleState) (p : ValPacket) : Bool × DongleState × Nat :=
  match p.sender with
  | none => (true, s, 0)
  | some d =>
    if hasOutOfRangeFields p.parsed then
      let s1 : DongleState :=
        if s.warnedOutOfRange d then s
        else { s with warnedOutOfRange := Function.update s.warnedOutOfRange d true }
      let newCount := s1.invalidCount d + 1
      let s2 : DongleState := { s1 with invalidCount := Function.update s1.invalidCount d newCount }
      if dongleResetThreshold ≤ newCount then
        let r := triggerDongleReset s2
        (false, r.1, r.2)
      else
        (false, s2, 0)
    else if hasInvalidEnumFields p.parsed then
      let s1 : DongleState :=
        if s.warnedInvalidEnum d then s
        else { s with warnedInvalidEnum := Function.update s.warnedInvalidEnum d true }
      let newCount := s1.invalidCount d + 1
      let s2 : DongleState := { s1 with invalidCount := Function.update s1.invalidCount d newCount }
      if dongleResetThreshold ≤ newCount then
        let r := triggerDongleReset s2
        (false, r.1, r.2)
      else
        (false, s2, 0)
    else
      (true, s, 0)

/-- Repeated application of the validation step over a telegram sequence,
accumulating the total number of reset commands emitted. -/
def runValidate (s : DongleState) (ps : List ValPacket) : DongleState × Nat :=
  ps.foldl
    (fun acc p =>
      let r := validateAndTrack acc.1 p
      (r.2.1, acc.2 + r.2.2))
    (s, 0)

/-- EepTriplet models one entry of `_device_profiles`: the dict
`{"rorg": r, "func": f, "type": t}` registered for a device. -/
structure EepTriplet where
  rorg : Nat
  func : Nat
  typ : Nat
deriving DecidableEq, Repr

/-- ProfileRegistry models the `_device_profiles` dict as an insertion-ordered
association list with pairwise-distinct keys. -/
abbrev ProfileRegistry := List (DeviceId × EepTriplet)

/-- Mirrors `self._device_profiles.get(key)`. -/
def lookupProfile (reg : ProfileRegistry) (k : DeviceId) : Option EepTriplet :=
  (reg.find? fun e => e.1 == k).map (·.2)

/-- Mirrors the dict assignment `self._device_profiles[device_key] = {...}` of
`register_device_profile`: overwrite in place when the key exists, append
otherwise. -/
def registryInsert (reg : ProfileRegistry) (k : DeviceId) (pr : EepTriplet) : ProfileRegistry :=
  if (reg.find? fun e => e.1 == k).isSome then
    reg.map fun e => if e.1 == k then (k, pr) else e
  else
    reg ++ [(k, pr)]

/-- ParsePacket models the attributes of a radio packet consulted by
`_parse_packet_by_profile`: its sender and its optional `destination`
attribute (`none` models a missing or `None` destination). -/
structure ParsePacket where
  sender : DeviceId
  destination : Option DeviceId
deriving DecidableEq, Repr

/-- Mirrors the broadcast test
`all(b == 0xFF for b in dest) or (len(dest) == 4 and dest[0] == 0xFF)`. -/
def isBroadcastDest (dest : DeviceId) : Bool :=
  dest.all (fun b => b == 0xFF) || (dest.length == 4 && dest.head? == some 0xFF)

/-- Mirrors
`dest == list(self.base_id) if self.base_id and len(dest) == len(self.base_id) else False`:
a `None` or empty (falsy) base id yields `False`. -/
def isToDongle (baseId : Option DeviceId) (dest : DeviceId) : Bool :=
  match baseId with
  | none => false
  | some b => if b ≠ [] ∧ dest.length = b.length then dest == b else false

/-- Mirrors the controller-role test of `_parse_packet_by_profile`:
`sender_profile.get("rorg") == 0xD1079 and sender_profile.get("func") == 0x01`. -/
def isControllerProfile (pr : EepTriplet) : Bool :=
  pr.rorg == 0xD1079 && pr.func == 0x01

/-- Mirrors `_parse_packet_by_profile`. Returns the final value of
`packet.parsed` (`none` when structured parsing was skipped, the sender has no
registered profile, or the library parse raised) together with whether a
rediscovery event was emitted. `libParse` stands for the outcome of the
external library call `packet.parse_eep(...)` performed with the sender's
registered profile (`none` models a parse exception). -/
def parsePacketByProfile (baseId : Option DeviceId) (reg : ProfileRegistry)
    (devicesWithEntities : List DeviceId) (pkt : ParsePacket)
    (libParse : Option ParsedMap) : Option ParsedMap × Bool :=
  let skip : Bool :=
    match pkt.destination with
    | none => false
    | some dest =>
      if dest ≠ [] then
        match lookupProfile reg pkt.sender with
        | some pr => isControllerProfile pr && !isBroadcastDest dest && !isToDongle baseId dest
        | none => false
      else false
  if skip then (none, false)
  else
    match lookupProfile reg pkt.sender with
    | none => (none, false)
    | some _ =>
      match libParse with
      | none => (none, false)
      | some m => (some m, !m.isEmpty && !(devicesWithEntities.contains pkt.sender))

/-- PyPrim models a primitive Python value inside a parsed field: an int or
float (`int()` truncation folded in, the claims only involve integral values),
or a non-numeric value with its truthiness. -/
inductive PyPrim where
  | ival (n : Int)
  | sval (truthy : Bool)
deriving DecidableEq, Repr

/-- Python truthiness of a primitive: `0` is falsy. -/
def primTruthy : PyPrim → Bool
  | .ival n => n != 0
  | .sval t => t

/-- PyVal models one value of the parsed map consumed by
`_process_ventilairsec_sensors`: a bare primitive, or a field dict carrying at
most the keys `"value"` / `"raw_value"` (the only keys the code reads). -/
inductive PyVal where
  | prim (v : PyPrim)
  | pdict (value : Option PyPrim) (rawValue : Option PyPrim)
deriving DecidableEq, Repr

/-- Python truthiness of a parsed-map value: a dict is truthy iff non-empty. -/
def pyTruthy : PyVal → Bool
  | .prim v => primTruthy v
  | .pdict v rv => v.isSome || rv.isSome

/-- Mirrors `packet.parsed.get(key)` for the Ventilairsec parsed map. -/
def vlookup (parsed : List (String × PyVal)) (k : String) : Option PyVal :=
  (parsed.find? fun e => e.1 == k).map (·.2)

/-- MscPacket models the attributes of a radio packet consulted by
`_process_ventilairsec_sensors`. -/
structure MscPacket where
  rorg : Nat
  rorgManufacturer : Option Nat
  cmd : Option Nat
  sender : DeviceId
  vparsed : List (String × PyVal)
deriving DecidableEq, Repr

/-- VentState gathers the dongle state observed and mutated by
`_process_ventilairsec_sensors`: the `_discovered_sensors` key set, the
profile registry, and the discovery events emitted so far. -/
structure VentState where
  discoveredSensors : List (DeviceId × Int)
  profiles : ProfileRegistry
  discoveries : List (DeviceId × EepTriplet)
deriving DecidableEq, Repr

/-- Mirrors the early guard of `_process_ventilairsec_sensors`: only parsed
Ventilairsec MSC command-8 packets are processed further. -/
def ventGuardFails (pkt : MscPacket) : Bool :=
  pkt.rorg != 0xD1 || pkt.rorgManufacturer != some 0x079 ||
    pkt.cmd != some 8 || pkt.vparsed.isEmpty

/-- Mirrors the IDAPP extraction: `parsed.get("IDAPP", {})`, the falsy check,
`get("value", get("raw_value"))` on a dict, and the numeric-type check.
`none` means the report is dropped at this step (with a warning for the
non-numeric case). -/
def extractSensorId (parsed : List (String × PyVal)) : Option Int :=
  match vlookup parsed "IDAPP" with
  | none => none
  | some raw =>
    if pyTruthy raw then
      match
        (match raw with
         | .prim v => some v
         | .pdict v rv => v.orElse fun _ => rv) with
      | some (.ival n) => some n
      | _ => none
    else none

/-- Mirrors the PROFAPP extraction: `parsed.get("PROFAPP", {})` then
`get("raw_value", get("value"))` on a dict (`raw_value` preferred, unlike
IDAPP); a missing key yields Python `None`, modelled as `none`. -/
def extractProfApp (parsed : List (String × PyVal)) : Option PyPrim :=
  match vlookup parsed "PROFAPP" with
  | none => none
  | some (.prim v) => some v
  | some (.pdict v rv) => rv.orElse fun _ => v

/-- Maps the PROFAPP value to the registered EEP triplet. The code first maps
the value through `prof_map` to a profile string (`"d1079-00-00"`,
`"a5-04-01"`, `"a5-09-04"`, `"d2-04-08"`), splits it on `-` and parses each
part with `int(_, 16)`; for the four known values this yields the triplets
below, and for any other PROFAPP value the string is an `unknown-` form whose
first part makes `int("unknown", 16)` raise, so the report is dropped with a
warning. That string round-trip is evaluated here. -/
def profAppTriplet (v : Option PyPrim) : Option EepTriplet :=
  match v with
  | some (.ival n) =>
    if n = 1 then some ⟨0xD1079, 0x00, 0x00⟩
    else if n = 2 then some ⟨0xA5, 0x04, 0x01⟩
    else if n = 3 then some ⟨0xA5, 0x09, 0x04⟩
    else if n = 4 then some ⟨0xD2, 0x04, 0x08⟩
    else none
  | _ => none

/-- Big-endian 4-byte split of the 32-bit sub-sensor id, mirroring
`[(sensor_id >> 24) & 0xFF, (sensor_id >> 16) & 0xFF, (sensor_id >> 8) & 0xFF,
sensor_id & 0xFF]` (Python `>>` is floor division, `& 0xFF` keeps the low
byte as a non-negative value). -/
def sensorIdBytes (n : Int) : DeviceId :=
  [((Int.ediv n 16777216).emod 256).toNat,
   ((Int.ediv n 65536).emod 256).toNat,
   ((Int.ediv n 256).emod 256).toNat,
   (n.emod 256).toNat]

/-- Mirrors `_process_ventilairsec_sensors`: guard on MSC/manufacturer/command
8, extract the sensor id and PROFAPP, deduplicate via `_discovered_sensors`
(the mark happens before the profile-string parse), then register the derived
pseudo-device profile and emit its discovery event. `CAPTINDEX` is extracted
with get-defaults and only logged, so it is omitted. -/
def processVentilairsec (st : VentState) (pkt : MscPacket) : VentState :=
  if ventGuardFails pkt then st
  else
    match extractSensorId pkt.vparsed with
    | none => st
    | some n =>
      let profV := extractProfApp pkt.vparsed
      let sensorKey := (pkt.sender, n)
      if st.discoveredSensors.contains sensorKey then st
      else
        let st1 := { st with discoveredSensors := st.discoveredSensors ++ [sensorKey] }
        match profAppTriplet profV with
        | none => st1
        | some tr =>
          let bytes := sensorIdBytes n
          { st1 with
            profiles := registryInsert st1.profiles bytes tr,
            discoveries := st1.discoveries ++ [(bytes, tr)] }

/-- EntityType mirrors the `EntityType` enum of `types.py`. -/
inductive EntityType where
  | sensor
  | binary_sensor
  | select
  | light
  | button
  | number
  | switch
deriving DecidableEq, Repr

/-- EnumItem models one extracted enum item: its parsed value (`some n` when
the XML value string parses as an int, `none` for a non-int value, which the
classifier coerces to 0) and its description. -/
structure EnumItem where
  value : Option Int
  description : String
deriving DecidableEq, Repr

/-- Prefix test on character lists (Python `str.startswith`). -/
def charsStart : List Char → List Char → Bool
  | [], _ => true
  | _ :: _, [] => false
  | a :: n, b :: h => a == b && charsStart n h

/-- Substring test on character lists (Python `x in s`). -/
def charsSub (n : List Char) (h : List Char) : Bool :=
  match h with
  | [] => charsStart n []
  | _ :: h1 => charsStart n h || charsSub n h1

/-- Python `needle in hay` on strings. -/
def strContains (needle hay : String) : Bool :=
  charsSub needle.data hay.data

/-- Python `hay.startswith(needle)`. -/
def strStarts (needle hay : String) : Bool :=
  charsStart needle.data hay.data

/-- Python `str.upper` (on the ASCII shortcuts the claims involve). -/
def upperStr (s : String) : String := ⟨s.data.map Char.toUpper⟩

/-- Python `str.lower`. -/
def lowerStr (s : String) : String := ⟨s.data.map Char.toLower⟩

/-- Mirrors the value-set comprehension of `_classify_entity_type`:
`{int(it["value"]) if isinstance(it["value"], int) else 0 for it in items}`. -/
def itemVals (items : List EnumItem) : Finset Int :=
  (items.map fun it => it.value.getD 0).toFinset

/-- Keyword disjunction of the lights/dimmers rule of `_classify_entity_type`. -/
def lightKeywordHit (sc desc : String) : Bool :=
  strContains "EDIM" sc || strContains "DIM" sc || strContains "BRI" sc ||
  strContains "BRIGHT" sc || strContains "DMD" sc ||
  strContains "dimm" desc || strContains "brightness" desc

/-- Keyword disjunction of the configurable-number rule of
`_classify_entity_type`. -/
def numberKeywordHit (sc desc : String) : Bool :=
  strContains "volume" desc || strContains "speed" desc || strContains "setpoint" desc ||
  strContains "target" desc || strContains "position" desc || strContains "bypass" desc ||
  strContains "ventil" desc || strContains "vitesse" desc || strContains "débit" desc ||
  strContains "consigne" desc ||
  strContains "VIT" sc || strContains "VOL" sc || strContains "POS" sc ||
  strContains "BY" sc || strContains "VVENT" sc

/-- Tail of `_classify_entity_type` reached when the enum-items branch does
not apply: known binary shortcuts, `WIN`, lights, commands, bounded numeric
fields, default sensor. -/
def classifyNonEnum (sc desc : String) (fieldType : String)
    (minValue maxValue : Option Int) : EntityType :=
  if sc = "WAS" ∨ sc = "SMO" ∨ sc = "CO" then .binary_sensor
  else if sc = "WIN" then .select
  else if lightKeywordHit sc desc then .light
  else if sc = "CMD" ∨ strContains "command" desc then .button
  else if fieldType = "value" then
    match minValue, maxValue with
    | some mn, some mx =>
      if 0 < mx - mn ∧ mx - mn ≤ 10000 then
        if numberKeywordHit sc desc then .number else .sensor
      else .sensor
    | _, _ => .sensor
  else .sensor

/-- Mirrors `_classify_entity_type`: booleans first, then the enum-items
branch (values exactly pair 0 1 yields binary-sensor; shortcut starting with `R`
with at least 3 distinct values yields button; more than 2 distinct values
yields select; otherwise sensor, short-circuiting the remaining rules), then
the keyword rules, then the default. -/
def classifyEntityType (shortcut description : Option String) (fieldType : String)
    (items : Option (List EnumItem)) (minValue maxValue : Option Int) : EntityType :=
  let sc := upperStr (shortcut.getD "")
  let desc := lowerStr (description.getD "")
  if fieldType = "boolean" then .binary_sensor
  else
    match items with
    | some l =>
      if l.isEmpty then classifyNonEnum sc desc fieldType minValue maxValue
      else
        let vals := itemVals l
        if vals = {0, 1} then .binary_sensor
        else if strStarts "R" sc ∧ 3 ≤ vals.card then .button
        else if 2 < vals.card then .select
        else .sensor
    | none => classifyNonEnum sc desc fieldType minValue maxValue

/-- Disjunction of the classifier's rule conditions, used to state the
default case of the claim: a field matching none of these is classified as a
plain sensor. -/
def matchesClassificationRule (shortcut description : Option String) (fieldType : String)
    (items : Option (List EnumItem)) (minValue maxValue : Option Int) : Prop :=
  let sc := upperStr (shortcut.getD "")
  let desc := lowerStr (description.getD "")
  fieldType = "boolean" ∨
  (∃ l, items = some l ∧ l ≠ []) ∨
  sc = "WAS" ∨ sc = "SMO" ∨ sc = "CO" ∨ sc = "WIN" ∨
  lightKeywordHit sc desc = true ∨
  sc = "CMD" ∨ strContains "command" desc = true ∨
  (fieldType = "value" ∧ ∃ mn mx, minValue = some mn ∧ maxValue = some mx ∧
    0 < mx - mn ∧ mx - mn ≤ 10000 ∧ numberKeywordHit sc desc = true)

/-- BoundEl models the `<min>`/`<max>` child of a `<scale>` or `<range>`
element: absent (or empty text), present but failing `float(...)`, or parsing
to a numeric value (integral in all behaviours the claims exercise). -/
inductive BoundEl where
  | absent
  | unparseable
  | num (x : Int)
deriving DecidableEq, Repr

/-- FieldElement models one `<value>`/`<enum>`/`<boolean>` element of an EEP
profile as seen by `_extract_eep_fields`, with its `<scale>`/`<range>`
sub-elements and its already-expanded enum items. -/
structure FieldElement where
  shortcut : Option String
  description : Option String
  unit : Option String
  fieldType : String
  scale : Option (BoundEl × BoundEl)
  range : Option (BoundEl × BoundEl)
  items : Option (List EnumItem)
deriving DecidableEq, Repr

/-- Mirrors the min/max extraction of `_extract_eep_fields` (lines 142-170 of
`eep_devices.py`). The `<scale>` branch executes
`locals()[val_var] = float(bound_el.text.strip())`, which in CPython writes
into a discarded snapshot of the frame locals and never rebinds the local
variables `min_value`/`max_value`; the computed scale bounds are therefore
lost, and the subsequent `<range>` fallback - whose guard
`min_value is None or max_value is None` is consequently always true -
performs the only effective assignments. -/
def extractMinMax (scaleEl rangeEl : Option (BoundEl × BoundEl)) : Option Int × Option Int :=
  let minValue : Option Int := none
  let maxValue : Option Int := none
  -- the <scale> branch is evaluated (errors suppressed) but assigns through
  -- locals(), leaving minValue/maxValue unchanged
  let _ := scaleEl
  if minValue = none ∨ maxValue = none then
    match rangeEl with
    | none => (minValue, maxValue)
    | some (bmin, bmax) =>
      let minValue1 := match bmin with
        | .num x => if minValue = none then some x else minValue
        | _ => minValue
      let maxValue1 := match bmax with
        | .num x => if maxValue = none then some x else maxValue
        | _ => maxValue
      (minValue1, maxValue1)
  else (minValue, maxValue)

/-- EEPEntityDefB is the slice of the `EEPEntityDef` dataclass relevant to the
field-extraction claims: description, data field, classification and bounds. -/
structure EEPEntityDefB where
  description : String
  dataField : String
  entityType : EntityType
  minValue : Option Int
  maxValue : Option Int
deriving DecidableEq, Repr

/-- Mirrors one iteration of the per-element loop of `_extract_eep_fields`
for a single field element: skip elements without a shortcut or with shortcut
`"CMD"`, default the description to the shortcut
(`element.get("description") or shortcut`), compute the bounds via
`extractMinMax`, and classify. -/
def extractFieldDef (el : FieldElement) : Option EEPEntityDefB :=
  match el.shortcut with
  | none => none
  | some sc =>
    if sc = "" ∨ sc = "CMD" then none
    else
      let desc :=
        match el.description with
        | some d => if d = "" then sc else d
        | none => sc
      let bounds := extractMinMax el.scale el.range
      some
        { description := desc
          dataField := sc
          entityType := classifyEntityType (some sc) (some desc) el.fieldType el.items
            bounds.1 bounds.2
          minValue := bounds.1
          maxValue := bounds.2 }

/-- Decimal digit character, `chr(48 + d)`. -/
def digitChar (d : Nat) : Char := Char.ofNat (48 + d)

/-- Fuel-driven decimal rendering helper (most significant digit first). The
fuel argument only bounds the recursion; any fuel at least the value itself
renders all digits. -/
def natCharsAux : Nat → Nat → List Char
  | 0, _ => []
  | _ + 1, 0 => []
  | fuel + 1, n + 1 => natCharsAux fuel ((n + 1) / 10) ++ [digitChar ((n + 1) % 10)]

/-- Decimal rendering of a natural number, modelling Python `str(x)` on the
non-negative byte values stored in device keys. -/
def natChars (n : Nat) : List Char :=
  if n = 0 then ['0'] else natCharsAux n n

/-- Value of a decimal digit character, `none` for a non-digit. -/
def charDigit? (c : Char) : Option Nat :=
  if 48 ≤ c.toNat ∧ c.toNat ≤ 57 then some (c.toNat - 48) else none

/-- Left-to-right accumulation of a decimal value; fails on a non-digit. -/
def pvAux : Nat → List Char → Option Nat
  | a, [] => some a
  | a, c :: cs =>
    match charDigit? c with
    | some d => pvAux (a * 10 + d) cs
    | none => none

/-- Models Python `int(s)` on the decimal strings handled by the profile
store: the empty string and non-digit characters raise `ValueError` (here
`none`). -/
def charsNat? (cs : List Char) : Option Nat :=
  match cs with
  | [] => none
  | _ :: _ => pvAux 0 cs

/-- Specification helper mirroring `pvAux` on the digits of a number: the
value obtained by appending the decimal digits of `n` to accumulator `a`. -/
def shiftInto : Nat → Nat → Nat → Nat
  | 0, a, _ => a
  | _ + 1, a, 0 => a
  | fuel + 1, a, n + 1 => shiftInto fuel a ((n + 1) / 10) * 10 + (n + 1) % 10

/-- Python `",".join(pieces)`. -/
def joinComma : List (List Char) → List Char
  | [] => []
  | [p] => p
  | p :: ps => p ++ ',' :: joinComma ps

/-- Helper for `splitComma`, accumulating the current piece in reverse. -/
def splitCommaAux : List Char → List Char → List (List Char)
  | [], acc => [acc.reverse]
  | c :: cs, acc =>
    if c = ',' then acc.reverse :: splitCommaAux cs []
    else splitCommaAux cs (c :: acc)

/-- Python `s.split(",")`; the empty string yields one empty piece. -/
def splitComma (cs : List Char) : List (List Char) := splitCommaAux cs []

/-- Applies a fallible function to every element, failing on the first error;
models the `tuple(int(x) for x in ...)` comprehension. -/
def mapOpt {α β : Type} (f : α → Option β) : List α → Option (List β)
  | [] => some []
  | x :: xs =>
    match f x with
    | some y => (mapOpt f xs).map fun ys => y :: ys
    | none => none

/-- Mirrors `",".join(str(x) for x in device_key)` of
`_async_save_device_profiles`. -/
def serializeKey (k : DeviceId) : List Char := joinComma (k.map natChars)

/-- Mirrors `tuple(int(x) for x in device_key_str.split(","))` of
`async_load_device_profiles`; `none` models the `ValueError` caught by the
per-entry handler. -/
def parseKey (cs : List Char) : Option DeviceId := mapOpt charsNat? (splitComma cs)

/-- Mirrors `_async_save_device_profiles`: each device key tuple becomes the
comma-joined decimal string of its values; the profile dict is stored as-is. -/
def persistProfiles (reg : ProfileRegistry) : List (List Char × EepTriplet) :=
  reg.map fun e => (serializeKey e.1, e.2)

/-- Mirrors the per-entry loop of `async_load_device_profiles` run on a fresh
registry: a parseable key is loaded (`int` applied to the stored integer
rorg/func/type values is the identity) and one discovery event is dispatched;
a `ValueError` on an entry logs one warning and the loop continues with the
remaining entries. Returns the loaded registry together with the number of
warnings logged. -/
def loadProfiles : List (List Char × EepTriplet) → ProfileRegistry × Nat
  | [] => ([], 0)
  | (ks, pr) :: rest =>
    match parseKey ks with
    | some k =>
      let r := loadProfiles rest
      ((k, pr) :: r.1, r.2)
    | none =>
      let r := loadProfiles rest
      (r.1, r.2 + 1)

/-! Theorems. -/

/-- C10: a telegram whose packet object lacks a `sender` attribute passes
validation unconditionally: `_validate_and_track_packet` returns `True`, no
per-device counter or warning flag is created or modified, and no reset
command is emitted. -/
theorem no_sender_packet_passes_validation (s : DongleState) (p : ValPacket)
    (h : p.sender = none) : validateAndTrack s p = (true, s, 0) := by
  unfold validateAndTrack
  rw [h]

/-- Witness for `no_sender_packet_passes_validation` at a concrete packet. -/
theorem no_sender_packet_passes_validation_witness :
    validateAndTrack clearedTracking ⟨none, [("TMP", .plain 3)]⟩ = (true, clearedTracking, 0) :=
  no_sender_packet_passes_validation clearedTracking ⟨none, [("TMP", .plain 3)]⟩ rfl

/-- C9: a valid telegram (no out-of-range field and no invalid-enum field)
from a device leaves the whole tracking state - the device's out-of-range and
invalid-enum warning flags and its consecutive-invalid counter - unchanged,
and only the dongle-reset action clears them, globally. -/
theorem valid_packet_keeps_tracking (s : DongleState) (p : ValPacket) (d : DeviceId)
    (hs : p.sender = some d)
    (hoor : hasOutOfRangeFields p.parsed = false)
    (henum : hasInvalidEnumFields p.parsed = false) :
    validateAndTrack s p = (true, s, 0) ∧ (triggerDongleReset s).1 = clearedTracking := by
  refine ⟨?_, rfl⟩
  unfold validateAndTrack
  rw [hs, hoor, henum]
  simp

/-- Witness for `valid_packet_keeps_tracking`: a device with warned flags set
and a positive counter keeps them after a valid telegram. -/
theorem valid_packet_keeps_tracking_witness :
    validateAndTrack ⟨fun _ => 3, fun _ => true, fun _ => true⟩
        ⟨some [4, 32, 88, 165], [("TEMPCELEC", .nested (some 4) (some 4) false false)]⟩ =
      (true, ⟨fun _ => 3, fun _ => true, fun _ => true⟩, 0) ∧
    (triggerDongleReset ⟨fun _ => 3, fun _ => true, fun _ => true⟩).1 = clearedTracking :=
  valid_packet_keeps_tracking _ _ [4, 32, 88, 165] rfl rfl rfl

/-- Helper: an invalid telegram below the reset threshold is rejected with no
reset emitted, and the sender's consecutive-invalid counter is incremented. -/
theorem validate_invalid_below (s : DongleState) (p : ValPacket) (d : DeviceId)
    (hs : p.sender = some d) (hinv : packetInvalid p = true)
    (hlt : s.invalidCount d + 1 < dongleResetThreshold) :
    ∃ s1, validateAndTrack s p = (false, s1, 0) ∧
      s1.invalidCount = Function.update s.invalidCount d (s.invalidCount d + 1) := by
  have hthr : ¬ dongleResetThreshold ≤ s.invalidCount d + 1 := by omega
  unfold validateAndTrack
  rw [hs]
  cases hoor : hasOutOfRangeFields p.parsed with
  | true =>
    by_cases hw : s.warnedOutOfRange d
    · exact ⟨⟨Function.update s.invalidCount d (s.invalidCount d + 1),
        s.warnedOutOfRange, s.warnedInvalidEnum⟩, by simp [hw, hthr], rfl⟩
    · exact ⟨⟨Function.update s.invalidCount d (s.invalidCount d + 1),
        Function.update s.warnedOutOfRange d true, s.warnedInvalidEnum⟩,
        by simp [hw, hthr], rfl⟩
  | false =>
    have henum : hasInvalidEnumFields p.parsed = true := by
      unfold packetInvalid at hinv
      rw [hoor] at hinv
      simpa using hinv
    rw [henum]
    by_cases hw : s.warnedInvalidEnum d
    · exact ⟨⟨Function.update s.invalidCount d (s.invalidCount d + 1),
        s.warnedOutOfRange, s.warnedInvalidEnum⟩, by simp [hw, hthr], rfl⟩
    · exact ⟨⟨Function.update s.invalidCount d (s.invalidCount d + 1),
        s.warnedOutOfRange, Function.update s.warnedInvalidEnum d true⟩,
        by simp [hw, hthr], rfl⟩

/-- Helper: an invalid telegram whose increment reaches the threshold is
rejected, emits exactly one reset command, and clears all devices' counters
and warning flags. -/
theorem validate_invalid_at_threshold (s : DongleState) (p : ValPacket) (d : DeviceId)
    (hs : p.sender = some d) (hinv : packetInvalid p = true)
    (h4 : dongleResetThreshold ≤ s.invalidCount d + 1) :
    validateAndTrack s p = (false, clearedTracking, 1) := by
  unfold validateAndTrack
  rw [hs]
  cases hoor : hasOutOfRangeFields p.parsed with
  | true =>
    by_cases hw : s.warnedOutOfRange d
    · simp [hw, h4, triggerDongleReset]
    · simp [hw, h4, triggerDongleReset]
  | false =>
    have henum : hasInvalidEnumFields p.parsed = true := by
      unfold packetInvalid at hinv
      rw [hoor] at hinv
      simpa using hinv
    rw [henum]
    by_cases hw : s.warnedInvalidEnum d
    · simp [hw, h4, triggerDongleReset]
    · simp [hw, h4, triggerDongleReset]

/-- C2: starting with a zero counter for device `d`, five consecutive invalid
telegrams from `d` cause no reset during the first four, then the fifth is
rejected (not dispatched) while emitting exactly one reset command and
clearing all devices' counters and warning flags globally; the whole
five-telegram run emits exactly one reset, and a subsequent invalid telegram
from any device `e` is again rejected without a reset, with `e`'s counter
restarting at 1. -/
theorem five_invalid_packets_trigger_one_reset (s0 : DongleState) (p q : ValPacket)
    (d e : DeviceId) (hs : p.sender = some d) (hinv : packetInvalid p = true)
    (h0 : s0.invalidCount d = 0) (hqs : q.sender = some e) (hqinv : packetInvalid q = true) :
    (runValidate s0 (List.replicate 4 p)).2 = 0 ∧
    validateAndTrack (runValidate s0 (List.replicate 4 p)).1 p = (false, clearedTracking, 1) ∧
    runValidate s0 (List.replicate 5 p) = (clearedTracking, 1) ∧
    ∃ s5, validateAndTrack clearedTracking q = (false, s5, 0) ∧ s5.invalidCount e = 1 := by
  obtain ⟨s1, e1, c1⟩ := validate_invalid_below s0 p d hs hinv (by rw [h0]; decide)
  have h1 : s1.invalidCount d = 1 := by rw [c1, h0]; simp
  obtain ⟨s2, e2, c2⟩ := validate_invalid_below s1 p d hs hinv (by rw [h1]; decide)
  have h2 : s2.invalidCount d = 2 := by rw [c2, h1]; simp
  obtain ⟨s3, e3, c3⟩ := validate_invalid_below s2 p d hs hinv (by rw [h2]; decide)
  have h3 : s3.invalidCount d = 3 := by rw [c3, h2]; simp
  obtain ⟨s4, e4, c4⟩ := validate_invalid_below s3 p d hs hinv (by rw [h3]; decide)
  have h4 : s4.invalidCount d = 4 := by rw [c4, h3]; simp
  have run4 : runValidate s0 (List.replicate 4 p) = (s4, 0) := by
    simp [runValidate, List.replicate, e1, e2, e3, e4]
  have e5 : validateAndTrack s4 p = (false, clearedTracking, 1) :=
    validate_invalid_at_threshold s4 p d hs hinv (by rw [h4]; decide)
  have run5 : runValidate s0 (List.replicate 5 p) = (clearedTracking, 1) := by
    simp [runValidate, List.replicate, e1, e2, e3, e4, e5]
  refine ⟨by rw [run4], by rw [run4]; exact e5, run5, ?_⟩
  have hc : clearedTracking.invalidCount e + 1 < dongleResetThreshold := by
    simp [clearedTracking, dongleResetThreshold]
  obtain ⟨s5, e6, c6⟩ := validate_invalid_below clearedTracking q e hqs hqinv hc
  refine ⟨s5, e6, ?_⟩
  rw [c6]
  simp [clearedTracking]

/-- Witness for `five_invalid_packets_trigger_one_reset` at a concrete
out-of-range telegram. -/
theorem five_invalid_packets_trigger_one_reset_witness :
    runValidate clearedTracking
        (List.replicate 5
          ⟨some [4, 32, 88, 165], [("TEMPCELEC", .nested (some 47) (some 47) true false)]⟩) =
      (clearedTracking, 1) :=
  (five_invalid_packets_trigger_one_reset clearedTracking
      ⟨some [4, 32, 88, 165], [("TEMPCELEC", .nested (some 47) (some 47) true false)]⟩
      ⟨some [4, 32, 88, 165], [("TEMPCELEC", .nested (some 47) (some 47) true false)]⟩
      [4, 32, 88, 165] [4, 32, 88, 165] rfl (by decide) rfl rfl (by decide)).2.2.1

/-- C3: a telegram with a non-empty, non-broadcast destination different from
the dongle's base id, whose sender is registered with the controller profile
(rorg 0xD1079, func 0x01), skips structured parsing entirely (no parsed map is
populated and no rediscovery is emitted) whatever the library parser would
have returned; the same telegram with a broadcast destination, or addressed
to the dongle itself, is field-decoded. -/
theorem controller_directed_packet_skips_parsing (b dest destB sender : DeviceId)
    (reg : ProfileRegistry) (ents : List DeviceId) (t : Nat)
    (libParse : Option ParsedMap) (m : ParsedMap)
    (hb : b ≠ []) (hprof : lookupProfile reg sender = some ⟨0xD1079, 0x01, t⟩)
    (hne : dest ≠ []) (hnb : isBroadcastDest dest = false) (hnd : dest ≠ b)
    (hbb : isBroadcastDest destB = true) :
    parsePacketByProfile (some b) reg ents ⟨sender, some dest⟩ libParse = (none, false) ∧
    (parsePacketByProfile (some b) reg ents ⟨sender, some destB⟩ (some m)).1 = some m ∧
    (parsePacketByProfile (some b) reg ents ⟨sender, some b⟩ (some m)).1 = some m := by
  have hctrl : isControllerProfile ⟨0xD1079, 0x01, t⟩ = true := by
    simp [isControllerProfile]
  have htd : isToDongle (some b) dest = false := by
    show (if b ≠ [] ∧ dest.length = b.length then dest == b else false) = false
    split
    · simp [hnd]
    · rfl
  refine ⟨?_, ?_, ?_⟩
  · simp [parsePacketByProfile, hne, hprof, hctrl, hnb, htd]
  · by_cases hdB : destB = []
    · simp [parsePacketByProfile, hdB, hprof]
    · simp [parsePacketByProfile, hdB, hprof, hbb]
  · cases hBb : isBroadcastDest b with
    | true => simp [parsePacketByProfile, hb, hprof, hBb]
    | false =>
      have htd2 : isToDongle (some b) b = true := by
        simp [isToDongle, hb]
      simp [parsePacketByProfile, hb, hprof, hBb, htd2]

/-- Witness for `controller_directed_packet_skips_parsing` with the dongle at
`01:02:03:04`, the controller at `04:20:58:a5` and a directed destination
`04:20:74:c9`. -/
theorem controller_directed_packet_skips_parsing_witness :
    parsePacketByProfile (some [1, 2, 3, 4]) [([4, 32, 88, 165], ⟨0xD1079, 0x01, 0⟩)] []
        ⟨[4, 32, 88, 165], some [4, 32, 116, 201]⟩
        (some [("CMD", .nested (some 1) (some 1) false false)]) = (none, false) ∧
    (parsePacketByProfile (some [1, 2, 3, 4]) [([4, 32, 88, 165], ⟨0xD1079, 0x01, 0⟩)] []
        ⟨[4, 32, 88, 165], some [255, 156, 128, 128]⟩
        (some [("CMD", .nested (some 1) (some 1) false false)])).1 =
      some [("CMD", .nested (some 1) (some 1) false false)] ∧
    (parsePacketByProfile (some [1, 2, 3, 4]) [([4, 32, 88, 165], ⟨0xD1079, 0x01, 0⟩)] []
        ⟨[4, 32, 88, 165], some [1, 2, 3, 4]⟩
        (some [("CMD", .nested (some 1) (some 1) false false)])).1 =
      some [("CMD", .nested (some 1) (some 1) false false)] :=
  controller_directed_packet_skips_parsing [1, 2, 3, 4] [4, 32, 116, 201]
    [255, 156, 128, 128] [4, 32, 88, 165] [([4, 32, 88, 165], ⟨0xD1079, 0x01, 0⟩)] [] 0
    (some [("CMD", .nested (some 1) (some 1) false false)])
    [("CMD", .nested (some 1) (some 1) false false)]
    (by decide) (by decide) (by decide) (by decide) (by decide) (by decide)

/-- C7: processing a well-formed sub-sensor inventory report registers the
derived pseudo-device's profile and emits its discovery event exactly once:
the second processing of the same report is a no-op on the whole processor
state. -/
theorem inventory_report_idempotent (st : VentState) (pkt : MscPacket) (n : Int)
    (tr : EepTriplet)
    (hguard : ventGuardFails pkt = false)
    (hid : extractSensorId pkt.vparsed = some n)
    (hprof : profAppTriplet (extractProfApp pkt.vparsed) = some tr)
    (hfresh : st.discoveredSensors.contains (pkt.sender, n) = false) :
    (processVentilairsec st pkt).profiles = registryInsert st.profiles (sensorIdBytes n) tr ∧
    (processVentilairsec st pkt).discoveries = st.discoveries ++ [(sensorIdBytes n, tr)] ∧
    processVentilairsec (processVentilairsec st pkt) pkt = processVentilairsec st pkt := by
  have hstep : processVentilairsec st pkt =
      { st with
        discoveredSensors := st.discoveredSensors ++ [(pkt.sender, n)],
        profiles := registryInsert st.profiles (sensorIdBytes n) tr,
        discoveries := st.discoveries ++ [(sensorIdBytes n, tr)] } := by
    have hfresh1 : (pkt.sender, n) ∉ st.discoveredSensors := by simpa using hfresh
    simp [processVentilairsec, hguard, hid, hprof, hfresh1]
  have hmem : (st.discoveredSensors ++ [(pkt.sender, n)]).contains (pkt.sender, n) = true := by
    simp
  rw [hstep]
  refine ⟨rfl, rfl, ?_⟩
  simp [processVentilairsec, hguard, hid, hmem]

/-- Witness for `inventory_report_idempotent`: sub-sensor id `0x12345678`
with PROFAPP 2 derives pseudo-device `[18, 52, 86, 120]` with profile
a5-04-01. -/
theorem inventory_report_idempotent_witness :
    (processVentilairsec ⟨[], [], []⟩
        ⟨0xD1, some 0x079, some 8, [4, 32, 88, 165],
          [("IDAPP", .pdict (some (.ival 305419896)) none),
           ("PROFAPP", .pdict none (some (.ival 2)))]⟩).profiles =
      registryInsert [] (sensorIdBytes 305419896) ⟨0xA5, 0x04, 0x01⟩ ∧
    (processVentilairsec ⟨[], [], []⟩
        ⟨0xD1, some 0x079, some 8, [4, 32, 88, 165],
          [("IDAPP", .pdict (some (.ival 305419896)) none),
           ("PROFAPP", .pdict none (some (.ival 2)))]⟩).discoveries =
      [] ++ [(sensorIdBytes 305419896, ⟨0xA5, 0x04, 0x01⟩)] ∧
    processVentilairsec
        (processVentilairsec ⟨[], [], []⟩
          ⟨0xD1, some 0x079, some 8, [4, 32, 88, 165],
            [("IDAPP", .pdict (some (.ival 305419896)) none),
             ("PROFAPP", .pdict none (some (.ival 2)))]⟩)
        ⟨0xD1, some 0x079, some 8, [4, 32, 88, 165],
          [("IDAPP", .pdict (some (.ival 305419896)) none),
           ("PROFAPP", .pdict none (some (.ival 2)))]⟩ =
      processVentilairsec ⟨[], [], []⟩
        ⟨0xD1, some 0x079, some 8, [4, 32, 88, 165],
          [("IDAPP", .pdict (some (.ival 305419896)) none),
           ("PROFAPP", .pdict none (some (.ival 2)))]⟩ :=
  inventory_report_idempotent ⟨[], [], []⟩
    ⟨0xD1, some 0x079, some 8, [4, 32, 88, 165],
      [("IDAPP", .pdict (some (.ival 305419896)) none),
       ("PROFAPP", .pdict none (some (.ival 2)))]⟩
    305419896 ⟨0xA5, 0x04, 0x01⟩ (by decide) (by decide) (by decide) (by decide)

/-- C4 is refuted as stated: an inventory report with a well-formed IDAPP but
a missing PROFAPP field is dropped with a warning and registers nothing, yet
the processor state does change - the (parent, sensor-id) pair is added to
the discovered-sensor set before the malformation is detected, which is
observable (a later well-formed report for the same sensor is discarded by
the dedup check). Concrete input: parent `09:09:09:09`, IDAPP 4660, no
PROFAPP. -/
theorem malformed_inventory_report_state_change :
    processVentilairsec ⟨[], [], []⟩
        ⟨0xD1, some 0x079, some 8, [9, 9, 9, 9],
          [("IDAPP", .pdict (some (.ival 4660)) none)]⟩ ≠
      ⟨[], [], []⟩ := by decide

/-- C4 (amended): a sub-sensor inventory report whose fields are malformed or
missing is dropped without any partial registration - no pseudo-device
profile is registered and no discovery event is emitted; when the
malformation is a missing or unmappable PROFAPP (detected after the dedup
check), the only state change is that the (parent, sensor-id) pair is added
to the discovered-sensor set, and when the sensor id itself is missing, falsy
or non-numeric, the state is entirely unchanged. -/
theorem malformed_inventory_report_no_registration (st : VentState) (pkt : MscPacket) :
    (extractSensorId pkt.vparsed = none → processVentilairsec st pkt = st) ∧
    (∀ n, extractSensorId pkt.vparsed = some n →
      profAppTriplet (extractProfApp pkt.vparsed) = none →
      (processVentilairsec st pkt).profiles = st.profiles ∧
      (processVentilairsec st pkt).discoveries = st.discoveries) := by
  constructor
  · intro hid
    unfold processVentilairsec
    cases hg : ventGuardFails pkt with
    | true => simp
    | false => simp [hid]
  · intro n hid hprof
    unfold processVentilairsec
    cases hg : ventGuardFails pkt with
    | true => simp
    | false =>
      by_cases hdisc : (pkt.sender, n) ∈ st.discoveredSensors
      · simp [hid, hdisc]
      · simp [hid, hdisc, hprof]

/-- Witness for `malformed_inventory_report_no_registration`: a report with
IDAPP 4661 and no PROFAPP leaves an existing registry and the emitted
discoveries untouched. -/
theorem malformed_inventory_report_no_registration_witness :
    (processVentilairsec ⟨[], [([1, 1, 1, 1], ⟨1, 2, 3⟩)], []⟩
        ⟨0xD1, some 0x079, some 8, [9, 9, 9, 9],
          [("IDAPP", .pdict (some (.ival 4661)) none)]⟩).profiles =
      [([1, 1, 1, 1], ⟨1, 2, 3⟩)] ∧
    (processVentilairsec ⟨[], [([1, 1, 1, 1], ⟨1, 2, 3⟩)], []⟩
        ⟨0xD1, some 0x079, some 8, [9, 9, 9, 9],
          [("IDAPP", .pdict (some (.ival 4661)) none)]⟩).discoveries = [] :=
  (malformed_inventory_report_no_registration ⟨[], [([1, 1, 1, 1], ⟨1, 2, 3⟩)], []⟩
      ⟨0xD1, some 0x079, some 8, [9, 9, 9, 9],
        [("IDAPP", .pdict (some (.ival 4661)) none)]⟩).2
    4661 (by decide) (by decide)

/-- C1 is contradicted by the code (code bug). The claim - and the source's
own comment ("Extract min/max from `<scale>` (preferred) or `<range>`") and
the docstring of `test_eep_minmax.py` ("The loader should prefer `<scale>`
values") - say the `<scale>` bounds win when both sub-elements are present,
but the scale branch assigns through `locals()[val_var]`, which does not
rebind the locals in CPython, so the `<range>` bounds are returned instead:
for a value field with `<scale>` bounds 0/40 and `<range>` bounds 0/255 the
resulting descriptor carries min 0 and max 255, not 0 and 40. -/
theorem extract_scale_bounds_discarded :
    extractFieldDef
        ⟨some "TMP", some "Temperature", some "°C", "value",
          some (.num 0, .num 40), some (.num 0, .num 255), none⟩ =
      some ⟨"Temperature", "TMP", .sensor, some 0, some 255⟩ := by decide

/-- Helper: the tail classifier returns the default sensor type when none of
its rule conditions holds. -/
theorem classifyNonEnum_default (sc desc ft : String) (mn mx : Option Int)
    (hwas : sc ≠ "WAS") (hsmo : sc ≠ "SMO") (hco : sc ≠ "CO") (hwin : sc ≠ "WIN")
    (hlight : lightKeywordHit sc desc = false)
    (hcmd : sc ≠ "CMD") (hcommand : strContains "command" desc = false)
    (hnum : ¬ (ft = "value" ∧ ∃ a b, mn = some a ∧ mx = some b ∧
      0 < b - a ∧ b - a ≤ 10000 ∧ numberKeywordHit sc desc = true)) :
    classifyNonEnum sc desc ft mn mx = .sensor := by
  unfold classifyNonEnum
  rw [if_neg (by simp [hwas, hsmo, hco]), if_neg hwin, if_neg (by simp [hlight]),
    if_neg (by simp [hcmd, hcommand])]
  by_cases hft : ft = "value"
  · rw [if_pos hft]
    cases mn with
    | none => rfl
    | some a =>
      cases mx with
      | none => rfl
      | some b =>
        show (if 0 < b - a ∧ b - a ≤ 10000 then
            if numberKeywordHit sc desc = true then EntityType.number else EntityType.sensor
          else EntityType.sensor) = EntityType.sensor
        by_cases hr : 0 < b - a ∧ b - a ≤ 10000
        · rw [if_pos hr]
          cases hk : numberKeywordHit sc desc with
          | true => exact absurd ⟨hft, a, b, rfl, rfl, hr.1, hr.2, hk⟩ hnum
          | false => simp [hk]
        · rw [if_neg hr]
  · rw [if_neg hft]

/-- C8: the field classifier applies, in priority order, boolean kind to
binary-sensor; an enum field whose coerced value set is exactly the pair 0, 1
to binary-sensor; an enum field with at least 3 distinct values whose
upper-cased shortcut starts with "R" to button; an enum field with more than
2 distinct values and a shortcut not starting with "R" to select; and any
field matching none of the classifier's rules defaults to sensor. -/
theorem classify_entity_priority (shortcut description : Option String)
    (fieldType : String) (items : Option (List EnumItem)) (l : List EnumItem)
    (minValue maxValue : Option Int) (hl : items = some l) (hne : l ≠ []) :
    (∀ s d it mn mx, classifyEntityType s d "boolean" it mn mx = .binary_sensor) ∧
    (fieldType ≠ "boolean" → itemVals l = {0, 1} →
      classifyEntityType shortcut description fieldType items minValue maxValue =
        .binary_sensor) ∧
    (fieldType ≠ "boolean" → strStarts "R" (upperStr (shortcut.getD "")) = true →
      3 ≤ (itemVals l).card →
      classifyEntityType shortcut description fieldType items minValue maxValue =
        .button) ∧
    (fieldType ≠ "boolean" → strStarts "R" (upperStr (shortcut.getD "")) = false →
      2 < (itemVals l).card →
      classifyEntityType shortcut description fieldType items minValue maxValue =
        .select) ∧
    (∀ s d ft it mn mx, ¬ matchesClassificationRule s d ft it mn mx →
      classifyEntityType s d ft it mn mx = .sensor) := by
  have hle : l.isEmpty = false := by simpa using hne
  have h01 : ({0, 1} : Finset Int).card = 2 := rfl
  refine ⟨?_, ?_, ?_, ?_, ?_⟩
  · intro s d it mn mx
    simp [classifyEntityType]
  · intro hft hvals
    simp [classifyEntityType, hl, hle, hft, hvals]
  · intro hft hR hcard
    have hne01 : itemVals l ≠ ({0, 1} : Finset Int) := by
      intro h
      rw [h, h01] at hcard
      omega
    simp [classifyEntityType, hl, hle, hft, hne01, hR, hcard]
  · intro hft hR hcard
    have hne01 : itemVals l ≠ ({0, 1} : Finset Int) := by
      intro h
      rw [h, h01] at hcard
      omega
    simp [classifyEntityType, hl, hle, hft, hne01, hR, hcard]
  · intro s d ft it mn mx h
    simp only [matchesClassificationRule, not_or] at h
    obtain ⟨hft, hitems, hwas, hsmo, hco, hwin, hlight, hcmd, hcommand, hnum⟩ := h
    have hlight1 : lightKeywordHit (upperStr (s.getD "")) (lowerStr (d.getD "")) = false := by
      cases hx : lightKeywordHit (upperStr (s.getD "")) (lowerStr (d.getD "")) with
      | true => exact absurd hx hlight
      | false => rfl
    have hcommand1 :
        strContains "command" (lowerStr (d.getD "")) = false := by
      cases hx : strContains "command" (lowerStr (d.getD "")) with
      | true => exact absurd hx hcommand
      | false => rfl
    have hnum1 : ¬ (ft = "value" ∧ ∃ a b, mn = some a ∧ mx = some b ∧
        0 < b - a ∧ b - a ≤ 10000 ∧
        numberKeywordHit (upperStr (s.getD "")) (lowerStr (d.getD "")) = true) := by
      rintro ⟨hv, a, b, ha, hb, h1, h2, h3⟩
      exact hnum ⟨hv, a, b, ha, hb, h1, h2, h3⟩
    unfold classifyEntityType
    rw [if_neg hft]
    cases it with
    | none =>
      exact classifyNonEnum_default _ _ _ _ _ hwas hsmo hco hwin hlight1 hcmd hcommand1 hnum1
    | some l1 =>
      have hl1 : l1 = [] := by
        by_contra hx
        exact hitems ⟨l1, rfl, hx⟩
      rw [hl1]
      exact classifyNonEnum_default _ _ _ _ _ hwas hsmo hco hwin hlight1 hcmd hcommand1 hnum1

/-- Witness for `classify_entity_priority` at the spec's examples: a boolean
field, an enum with values 0 and 1, an enum with 5 values and shortcut "R1",
and an enum with 4 values and shortcut "MODE". -/
theorem classify_entity_priority_witness :
    classifyEntityType (some "B1") (some "contact") "boolean"
        (some [⟨some 0, "z"⟩]) none none = .binary_sensor ∧
    classifyEntityType (some "ST") (some "state") "enum"
        (some [⟨some 0, "off"⟩, ⟨some 1, "on"⟩]) none none = .binary_sensor ∧
    classifyEntityType (some "R1") (some "rocker") "enum"
        (some [⟨some 0, "a"⟩, ⟨some 1, "b"⟩, ⟨some 2, "c"⟩, ⟨some 3, "d"⟩,
          ⟨some 4, "e"⟩]) none none = .button ∧
    classifyEntityType (some "MODE") (some "operating mode") "enum"
        (some [⟨some 0, "a"⟩, ⟨some 1, "b"⟩, ⟨some 2, "c"⟩, ⟨some 3, "d"⟩]) none none =
      .select :=
  ⟨(classify_entity_priority (some "B1") (some "contact") "boolean"
      (some [⟨some 0, "z"⟩]) [⟨some 0, "z"⟩] none none rfl (by decide)).1
      (some "B1") (some "contact") (some [⟨some 0, "z"⟩]) none none,
   (classify_entity_priority (some "ST") (some "state") "enum"
      (some [⟨some 0, "off"⟩, ⟨some 1, "on"⟩]) [⟨some 0, "off"⟩, ⟨some 1, "on"⟩]
      none none rfl (by decide)).2.1 (by decide) (by decide),
   (classify_entity_priority (some "R1") (some "rocker") "enum"
      (some [⟨some 0, "a"⟩, ⟨some 1, "b"⟩, ⟨some 2, "c"⟩, ⟨some 3, "d"⟩, ⟨some 4, "e"⟩])
      [⟨some 0, "a"⟩, ⟨some 1, "b"⟩, ⟨some 2, "c"⟩, ⟨some 3, "d"⟩, ⟨some 4, "e"⟩]
      none none rfl (by decide)).2.2.1 (by decide) (by decide) (by decide),
   (classify_entity_priority (some "MODE") (some "operating mode") "enum"
      (some [⟨some 0, "a"⟩, ⟨some 1, "b"⟩, ⟨some 2, "c"⟩, ⟨some 3, "d"⟩])
      [⟨some 0, "a"⟩, ⟨some 1, "b"⟩, ⟨some 2, "c"⟩, ⟨some 3, "d"⟩]
      none none rfl (by decide)).2.2.2.1 (by decide) (by decide) (by decide)⟩

/-- Helper: parsing a rendered decimal digit gives the digit back. -/
theorem charDigit?_digitChar : ∀ d, d < 10 → charDigit? (digitChar d) = some d := by decide

/-- Helper: decimal digit characters are not the comma separator. -/
theorem digitChar_ne_comma : ∀ d, d < 10 → digitChar d ≠ ',' := by decide

/-- Helper: the decimal accumulator distributes over list append. -/
theorem pvAux_append (xs ys : List Char) (a : Nat) :
    pvAux a (xs ++ ys) = (pvAux a xs).bind fun v => pvAux v ys := by
  induction xs generalizing a with
  | nil => rfl
  | cons c cs ih =>
    simp only [List.cons_append, pvAux]
    cases h : charDigit? c with
    | some d => exact ih (a * 10 + d)
    | none => rfl

/-- Helper: parsing the rendered digits of `n` onto accumulator `a` computes
`shiftInto`. -/
theorem natCharsAux_pv (fuel : Nat) : ∀ n a, n ≤ fuel →
    pvAux a (natCharsAux fuel n) = some (shiftInto fuel a n) := by
  induction fuel with
  | zero =>
    intro n a hn
    have h0 : n = 0 := Nat.le_zero.mp hn
    subst h0
    rfl
  | succ fuel ih =>
    intro n a hn
    cases n with
    | zero => rfl
    | succ m =>
      have h1 : (m + 1) / 10 < m + 1 := Nat.div_lt_self (Nat.succ_pos m) (by norm_num)
      have hdiv : (m + 1) / 10 ≤ fuel := by omega
      show pvAux a (natCharsAux fuel ((m + 1) / 10) ++ [digitChar ((m + 1) % 10)]) =
        some (shiftInto fuel a ((m + 1) / 10) * 10 + (m + 1) % 10)
      rw [pvAux_append, ih _ a hdiv]
      have hlt : (m + 1) % 10 < 10 := Nat.mod_lt _ (by norm_num)
      show pvAux (shiftInto fuel a ((m + 1) / 10)) [digitChar ((m + 1) % 10)] = _
      unfold pvAux
      rw [charDigit?_digitChar _ hlt]
      rfl

/-- Helper: `shiftInto` starting from 0 recovers the number. -/
theorem shiftInto_zero (fuel : Nat) : ∀ n, n ≤ fuel → shiftInto fuel 0 n = n := by
  induction fuel with
  | zero =>
    intro n hn
    have h0 : n = 0 := Nat.le_zero.mp hn
    subst h0
    rfl
  | succ fuel ih =>
    intro n hn
    cases n with
    | zero => rfl
    | succ m =>
      have h1 : (m + 1) / 10 < m + 1 := Nat.div_lt_self (Nat.succ_pos m) (by norm_num)
      have hdiv : (m + 1) / 10 ≤ fuel := by omega
      show shiftInto fuel 0 ((m + 1) / 10) * 10 + (m + 1) % 10 = m + 1
      rw [ih _ hdiv]
      omega

/-- Helper: a positive number renders to a non-empty digit string. -/
theorem natCharsAux_ne_nil (fuel n : Nat) (h0 : 0 < n) (hn : n ≤ fuel) :
    natCharsAux fuel n ≠ [] := by
  cases fuel with
  | zero => omega
  | succ fuel =>
    cases n with
    | zero => omega
    | succ m => simp [natCharsAux]

/-- Helper: `int(str(n))` round-trips on the decimal rendering. -/
theorem charsNat?_natChars (n : Nat) : charsNat? (natChars n) = some n := by
  by_cases h0 : n = 0
  · subst h0
    rfl
  · have hpos : 0 < n := Nat.pos_of_ne_zero h0
    have hne := natCharsAux_ne_nil n n hpos le_rfl
    unfold natChars
    rw [if_neg h0]
    cases hcs : natCharsAux n n with
    | nil => exact absurd hcs hne
    | cons c cs =>
      show pvAux 0 (c :: cs) = some n
      rw [← hcs, natCharsAux_pv n n 0 le_rfl, shiftInto_zero n n le_rfl]

/-- Helper: every character of a rendered number is a decimal digit. -/
theorem natCharsAux_mem (fuel : Nat) : ∀ n c, c ∈ natCharsAux fuel n →
    ∃ d, d < 10 ∧ c = digitChar d := by
  induction fuel with
  | zero =>
    intro n c hc
    simp [natCharsAux] at hc
  | succ fuel ih =>
    intro n c hc
    cases n with
    | zero => simp [natCharsAux] at hc
    | succ m =>
      simp only [natCharsAux, List.mem_append, List.mem_singleton] at hc
      rcases hc with hc | hc
      · exact ih _ c hc
      · exact ⟨(m + 1) % 10, Nat.mod_lt _ (by norm_num), hc⟩

/-- Helper: rendered numbers contain no comma. -/
theorem natChars_no_comma (n : Nat) (c : Char) (hc : c ∈ natChars n) : c ≠ ',' := by
  unfold natChars at hc
  by_cases h0 : n = 0
  · rw [if_pos h0] at hc
    simp at hc
    subst hc
    decide
  · rw [if_neg h0] at hc
    obtain ⟨d, hd, rfl⟩ := natCharsAux_mem n n c hc
    exact digitChar_ne_comma d hd

/-- Helper: splitting a comma-free piece yields the single accumulated piece. -/
theorem splitCommaAux_no_comma (p : List Char) : ∀ acc, (∀ c ∈ p, c ≠ ',') →
    splitCommaAux p acc = [acc.reverse ++ p] := by
  induction p with
  | nil =>
    intro acc _
    simp [splitCommaAux]
  | cons c cs ih =>
    intro acc h
    have hc : c ≠ ',' := h c (List.mem_cons_self c cs)
    show (if c = ',' then acc.reverse :: splitCommaAux cs []
      else splitCommaAux cs (c :: acc)) = _
    rw [if_neg hc, ih (c :: acc) fun x hx => h x (List.mem_cons_of_mem c hx)]
    simp

/-- Helper: splitting a comma-free piece followed by a comma peels one piece. -/
theorem splitCommaAux_append (p : List Char) : ∀ acc cs, (∀ c ∈ p, c ≠ ',') →
    splitCommaAux (p ++ ',' :: cs) acc = (acc.reverse ++ p) :: splitCommaAux cs [] := by
  induction p with
  | nil =>
    intro acc cs _
    show (if ',' = ',' then acc.reverse :: splitCommaAux cs []
      else splitCommaAux cs (',' :: acc)) = _
    rw [if_pos rfl]
    simp
  | cons c p ih =>
    intro acc cs h
    have hc : c ≠ ',' := h c (List.mem_cons_self c p)
    show (if c = ',' then acc.reverse :: splitCommaAux (p ++ ',' :: cs) []
      else splitCommaAux (p ++ ',' :: cs) (c :: acc)) = _
    rw [if_neg hc, ih (c :: acc) cs fun x hx => h x (List.mem_cons_of_mem c hx)]
    simp

/-- Helper: split is a left inverse of join on non-empty lists of comma-free
pieces. -/
theorem splitComma_joinComma (ps : List (List Char)) (hne : ps ≠ [])
    (hcf : ∀ p ∈ ps, ∀ c ∈ p, c ≠ ',') : splitComma (joinComma ps) = ps := by
  induction ps with
  | nil => exact absurd rfl hne
  | cons p ps ih =>
    cases ps with
    | nil =>
      show splitCommaAux p [] = [p]
      rw [splitCommaAux_no_comma p [] (hcf p (List.mem_cons_self p []))]
      simp
    | cons q ps1 =>
      show splitCommaAux (p ++ ',' :: joinComma (q :: ps1)) [] = p :: q :: ps1
      rw [splitCommaAux_append p [] (joinComma (q :: ps1))
        (hcf p (List.mem_cons_self p (q :: ps1)))]
      simp only [List.reverse_nil, List.nil_append, List.cons.injEq, true_and]
      exact ih (by simp) fun r hr => hcf r (List.mem_cons_of_mem p hr)

/-- Helper: parsing every rendered key byte succeeds and round-trips. -/
theorem mapOpt_charsNat_natChars (k : List Nat) :
    mapOpt charsNat? (k.map natChars) = some k := by
  induction k with
  | nil => rfl
  | cons x xs ih =>
    show mapOpt charsNat? (natChars x :: xs.map natChars) = some (x :: xs)
    unfold mapOpt
    rw [charsNat?_natChars, ih]
    rfl

/-- Helper: a serialized non-empty device key parses back to itself. -/
theorem parseKey_serializeKey (k : DeviceId) (hk : k ≠ []) :
    parseKey (serializeKey k) = some k := by
  unfold parseKey serializeKey
  rw [splitComma_joinComma (k.map natChars) (by simpa using hk)
    fun p hp c hc => by
      obtain ⟨n, hn, rfl⟩ := List.mem_map.mp hp
      exact natChars_no_comma n c hc]
  exact mapOpt_charsNat_natChars k

/-- C5: serializing a profile registry as in `_async_save_device_profiles`
(comma-joined decimal string keys, integer triplet values) and loading the
serialized form into a fresh registry as in `async_load_device_profiles`
reproduces exactly the same identifier-to-triplet association, every byte
value and triplet component preserved, with no warnings. Device identifiers
are the non-empty byte lists of the data model. -/
theorem persist_load_roundtrip (reg : ProfileRegistry) (h : ∀ e ∈ reg, e.1 ≠ []) :
    loadProfiles (persistProfiles reg) = (reg, 0) := by
  induction reg with
  | nil => rfl
  | cons e rest ih =>
    obtain ⟨k, pr⟩ := e
    show loadProfiles ((serializeKey k, pr) :: persistProfiles rest) = ((k, pr) :: rest, 0)
    unfold loadProfiles
    rw [parseKey_serializeKey k (h (k, pr) (List.mem_cons_self _ _)),
      ih fun x hx => h x (List.mem_cons_of_mem _ hx)]

/-- Witness for `persist_load_roundtrip` at the spec's example: identifier
`[4, 32, 88, 165]` with triplet d1-07-90. -/
theorem persist_load_roundtrip_witness :
    loadProfiles (persistProfiles [([4, 32, 88, 165], ⟨0xD1, 0x07, 0x90⟩)]) =
      ([([4, 32, 88, 165], ⟨0xD1, 0x07, 0x90⟩)], 0) :=
  persist_load_roundtrip [([4, 32, 88, 165], ⟨0xD1, 0x07, 0x90⟩)] (by decide)

/-- C6: loading a persisted set holding two valid entries around one
malformed entry loads exactly the two valid entries, logs one warning for the
malformed one, and does not abort - the entry after the failure is still
loaded. -/
theorem load_skips_malformed_entry (k1 k2 : DeviceId) (p1 p2 pbad : EepTriplet)
    (bad : List Char) (h1 : k1 ≠ []) (h2 : k2 ≠ []) (hbad : parseKey bad = none) :
    loadProfiles [(serializeKey k1, p1), (bad, pbad), (serializeKey k2, p2)] =
      ([(k1, p1), (k2, p2)], 1) := by
  simp [loadProfiles, parseKey_serializeKey k1 h1, parseKey_serializeKey k2 h2, hbad]

/-- Witness for `load_skips_malformed_entry` with the malformed key `"x"`. -/
theorem load_skips_malformed_entry_witness :
    loadProfiles [(serializeKey [4, 32, 88, 165], ⟨0xD1, 0x07, 0x90⟩),
        (['x'], ⟨1, 1, 1⟩), (serializeKey [1, 2, 3, 4], ⟨0xA5, 0x04, 0x01⟩)] =
      ([([4, 32, 88, 165], ⟨0xD1, 0x07, 0x90⟩), ([1, 2, 3, 4], ⟨0xA5, 0x04, 0x01⟩)], 1) :=
  load_skips_malformed_entry [4, 32, 88, 165] [1, 2, 3, 4] ⟨0xD1, 0x07, 0x90⟩
    ⟨0xA5, 0x04, 0x01⟩ ⟨1, 1, 1⟩ ['x'] (by decide) (by decide) (by decide)

end Enocean
